import Mathlib

/-!
Verification of the `pwi` PlaneWave device-control client, focused on the
focuser device interface (`src/pwi/focuser.py`).

The Python class `PlaneWaveFocuserDeviceInterface` is shallowly embedded as
explicit state passing: the mutable instance attributes become the `Focuser`
structure, the HTTPX client session becomes a `World` carrying an oracle of
HTTP outcomes together with the ordered trace of requests issued so far, and
each Python method becomes a function
`Focuser → World → Except Err α × Focuser × World`.
A raised Python exception is an `Except.error`; because Python exceptions
propagate after any mutations already performed, each function returns the
partially mutated `Focuser`/`World` alongside the error.
-/

namespace Pwi

/-- Modelled from the spec: `DeviceState` enum of `base.py` (the file is not
in the sources; spec section 3: "DeviceState: enum DISCONNECTED, CONNECTED;
initial value DISCONNECTED"). -/
inductive BaseDeviceState where
  | CONNECTED
  | DISCONNECTED
  deriving DecidableEq, Repr

/-- `BaseFocuserMode` from `base_focuser.py`. -/
inductive BaseFocuserMode where
  | RELATIVE
  | ABSOLUTE
  deriving DecidableEq, Repr

/-- `BaseFocuserMovingState` from `base_focuser.py`. -/
inductive BaseFocuserMovingState where
  | IDLE
  | MOVING
  deriving DecidableEq, Repr

/-- Modelled from the spec: `PlaneWaveFocuserDeviceInterfaceStatus` of
`status.py` (the file is not in the sources; spec section 3: "StatusModel:
read-only snapshot with fields is_connected (bool), is_enabled (bool),
is_moving (bool), position (optional integer, focuser)"). -/
structure PlaneWaveFocuserDeviceInterfaceStatus where
  is_connected : Bool
  is_enabled : Bool
  is_moving : Bool
  position : Option Int
  deriving DecidableEq, Repr

/-- The HTTP requests `focuser.py` can issue through `self._client.get`,
identified by URL path (and query parameter for `/focuser/goto`). -/
inductive Req where
  | focuserEnable          -- GET /focuser/enable
  | focuserDisable         -- GET /focuser/disable
  | focuserStop            -- GET /focuser/stop
  | statusQuery            -- GET /status
  | focuserGoto (target : Int)  -- GET /focuser/goto?target=...
  deriving DecidableEq, Repr

/-- Python exceptions raised by the embedded methods. -/
inductive Err where
  | httpStatusError (code : Nat)     -- httpx raise_for_status on a non-2xx code
  | runtimeError (msg : String)      -- RuntimeError
  | notImplementedError (msg : String)  -- NotImplementedError
  | timeoutError                     -- concurrent.futures.TimeoutError
  deriving DecidableEq, Repr

/-- The outcome the environment assigns to one HTTP request: either a
non-success response (its status code), or a success whose body — for
`/status` — parses and validates into the given status model. For the
command endpoints the payload of a success is irrelevant. -/
inductive Outcome where
  | httpError (code : Nat)
  | ok (st : PlaneWaveFocuserDeviceInterfaceStatus)
  deriving DecidableEq, Repr

/-- The HTTP session: an oracle giving the outcome of the n-th request of
the session, the number of requests issued so far, and their ordered trace. -/
structure World where
  env : Nat → Outcome
  count : Nat
  trace : List Req

/-- The mutable instance state of `PlaneWaveFocuserDeviceInterface`. -/
structure Focuser where
  state : BaseDeviceState
  moving_state : BaseFocuserMovingState
  is_enabled : Bool
  target_step_position : Int
  mode : BaseFocuserMode
  deriving DecidableEq, Repr

/-- `self._client.get(url=...)`: issues one request, recording it in the
trace and consuming one oracle entry. -/
def clientGet (r : Req) (w : World) : Outcome × World :=
  (w.env w.count, { w with count := w.count + 1, trace := w.trace ++ [r] })

/-- `response.raise_for_status()`: raises `HTTPStatusError` on a non-success
response. -/
def raise_for_status : Outcome → Except Err Unit
  | .httpError code => .error (.httpStatusError code)
  | .ok _ => .ok ()

/-- `connect(self, timeout, retries)` of `focuser.py` (lines 168-181): no-op
when already CONNECTED; otherwise GET `/focuser/enable`, raise on failure,
then set state to CONNECTED. The `timeout` and `retries` parameters are
unused by the body, as in the source. -/
def connect (f : Focuser) (w : World) : Except Err Unit × Focuser × World :=
  if f.state = BaseDeviceState.CONNECTED then
    (.ok (), f, w)
  else
    let (o, w) := clientGet Req.focuserEnable w
    match raise_for_status o with
    | .error e => (.error e, f, w)
    | .ok () => (.ok (), { f with state := BaseDeviceState.CONNECTED }, w)

/-- `abort_move(self)` of `focuser.py` (lines 410-416): GET `/focuser/stop`
unconditionally, raising on a non-success response. -/
def abort_move (f : Focuser) (w : World) : Except Err Unit × Focuser × World :=
  let (o, w) := clientGet Req.focuserStop w
  (raise_for_status o, f, w)

/-- `disconnect(self)` of `focuser.py` (lines 183-199): no-op when already
DISCONNECTED; otherwise `abort_move()`, then GET `/focuser/disable`, raise
on failure, then set state to DISCONNECTED. There is no try/finally: an
exception from the stop or the disable request propagates before the state
assignment runs. -/
def disconnect (f : Focuser) (w : World) : Except Err Unit × Focuser × World :=
  if f.state = BaseDeviceState.DISCONNECTED then
    (.ok (), f, w)
  else
    match abort_move f w with
    | (.error e, f, w) => (.error e, f, w)
    | (.ok (), f, w) =>
      let (o, w) := clientGet Req.focuserDisable w
      match raise_for_status o with
      | .error e => (.error e, f, w)
      | .ok () => (.ok (), { f with state := BaseDeviceState.DISCONNECTED }, w)

/-- `get_status(self)` of `focuser.py` (lines 201-220): returns `None` while
DISCONNECTED without any request; otherwise GET `/status`, raise on failure,
parse and validate the body into the status model. -/
def get_status (f : Focuser) (w : World) :
    Except Err (Option PlaneWaveFocuserDeviceInterfaceStatus) × Focuser × World :=
  if f.state = BaseDeviceState.DISCONNECTED then
    (.ok none, f, w)
  else
    let (o, w) := clientGet Req.statusQuery w
    match o with
    | .httpError code => (.error (.httpStatusError code), f, w)
    | .ok st => (.ok (some st), f, w)

/-- `is_connected(self)` of `focuser.py` (lines 222-241): False while
DISCONNECTED; otherwise fetch the status and return
`self.state == CONNECTED and status.is_connected`. -/
def is_connected (f : Focuser) (w : World) : Except Err Bool × Focuser × World :=
  if f.state = BaseDeviceState.DISCONNECTED then
    (.ok false, f, w)
  else
    match get_status f w with
    | (.error e, f, w) => (.error e, f, w)
    | (.ok none, f, w) => (.ok false, f, w)
    | (.ok (some st), f, w) =>
      (.ok (decide (f.state = BaseDeviceState.CONNECTED) && st.is_connected), f, w)

/-- `is_moving(self)` of `focuser.py` (lines 332-348): fetch the status
(raising `RuntimeError` when it is `None`), then return
`status.is_moving and self._moving_state == MOVING and
self._target_step_position != status.position`. In Python the last
comparison is between an `int` and an `Optional[int]`, so a `None` position
compares as different. -/
def is_moving (f : Focuser) (w : World) : Except Err Bool × Focuser × World :=
  match get_status f w with
  | (.error e, f, w) => (.error e, f, w)
  | (.ok none, f, w) => (.error (.runtimeError "Status not available"), f, w)
  | (.ok (some st), f, w) =>
    (.ok (st.is_moving && decide (f.moving_state = BaseFocuserMovingState.MOVING)
        && decide (some f.target_step_position ≠ st.position)), f, w)

/-- `set_position(self, position)` of `focuser.py` (lines 392-408): assigns
`self._target_step_position = position` first, then GET
`/focuser/goto?target=position`, raising on a non-success response. The
assignment is not rolled back when the request fails. -/
def set_position (f : Focuser) (position : Int) (w : World) :
    Except Err Unit × Focuser × World :=
  let f := { f with target_step_position := position }
  let (o, w) := clientGet (Req.focuserGoto position) w
  (raise_for_status o, f, w)

/-- `get_firmware_version(self)` of `focuser.py` (lines 305-312): raises
`NotImplementedError` unconditionally, touching neither the state nor the
client. -/
def get_firmware_version (f : Focuser) (w : World) :
    Except Err (Int × Int × Int) × Focuser × World :=
  (.error (.notImplementedError "get_firmware_version() not implemented."), f, w)

/-- The outcome of one `initialise` attempt: the body `do_initialise` is run
on a worker thread and awaited with `future.result(timeout=timeout)`, so an
attempt either completes in time, raises `concurrent.futures.TimeoutError`
at the deadline, raises `RuntimeError` (the "Status not available" path), or
raises some other exception (e.g. a transport error from `connect`). Real
threads and wall-clock deadlines are not shallowly embeddable, so the result
of each attempt is an oracle indexed by the attempt number. -/
inductive AttemptResult where
  | completed
  | timedOut
  | runtimeErr (msg : String)
  | otherErr (e : Err)
  deriving DecidableEq, Repr

/-- The retry loop of `initialise(self, timeout, retries)` of `focuser.py`
(lines 130-154), started at loop counter `i`: while `i < retries`, run one
attempt; on completion return; on `TimeoutError` raise `timeoutError` when
`i == retries - 1`, else swallow; on `RuntimeError` re-raise it when
`i == retries - 1`, else swallow; any other exception propagates at once.
Returns the result together with the total number of attempts run. -/
def initialiseFrom (attempt : Nat → AttemptResult) (retries i : Nat) :
    Except Err Unit × Nat :=
  if i < retries then
    match attempt i with
    | .completed => (.ok (), i + 1)
    | .timedOut =>
      if i = retries - 1 then (.error .timeoutError, i + 1)
      else initialiseFrom attempt retries (i + 1)
    | .runtimeErr msg =>
      if i = retries - 1 then (.error (.runtimeError msg), i + 1)
      else initialiseFrom attempt retries (i + 1)
    | .otherErr e => (.error e, i + 1)
  else
    (.ok (), i)
termination_by retries - i
decreasing_by all_goals omega

/-- `initialise(self, timeout, retries)` of `focuser.py` (lines 103-154):
the retry loop starting from `i = 0`. -/
def initialise (attempt : Nat → AttemptResult) (retries : Nat) :
    Except Err Unit × Nat :=
  initialiseFrom attempt retries 0

/-! ## Helper lemmas for the `initialise` retry loop -/

/-- The loop counter returned by `initialiseFrom` never exceeds `retries`
when started below it. -/
lemma initialiseFrom_count_le (attempt : Nat → AttemptResult) (R : Nat) :
    ∀ i, i ≤ R → (initialiseFrom attempt R i).2 ≤ R := by
  intro i
  induction i using initialiseFrom.induct attempt R with
  | case1 x hx hA =>
    intro _
    rw [initialiseFrom]
    simp [hx, hA]
    omega
  | case2 hx hA =>
    intro _
    rw [initialiseFrom]
    simp [hx, hA]
    omega
  | case3 x hx hA hne ih =>
    intro _
    rw [initialiseFrom]
    simp [hx, hA, hne]
    exact ih (by omega)
  | case4 msg hx hA =>
    intro _
    rw [initialiseFrom]
    simp [hx, hA]
    omega
  | case5 x hx msg hA hne ih =>
    intro _
    rw [initialiseFrom]
    simp [hx, hA, hne]
    exact ih (by omega)
  | case6 x hx e hA =>
    intro _
    rw [initialiseFrom]
    simp [hx, hA]
    omega
  | case7 x hx =>
    intro hle
    rw [initialiseFrom]
    simp [hx]
    omega

/-- When every remaining attempt times out, the loop raises the timeout
error on attempt `retries - 1`, for a total of exactly `retries` attempts. -/
lemma initialiseFrom_all_timeout (attempt : Nat → AttemptResult) (R : Nat) :
    ∀ i, i < R → (∀ k, i ≤ k → k < R → attempt k = AttemptResult.timedOut) →
      initialiseFrom attempt R i = (.error Err.timeoutError, R) := by
  intro i
  induction i using initialiseFrom.induct attempt R with
  | case1 x hx hA =>
    intro _ hall
    exact absurd (hall x le_rfl hx) (by simp [hA])
  | case2 hx hA =>
    intro _ _
    rw [initialiseFrom]
    simp [hx, hA]
    omega
  | case3 x hx hA hne ih =>
    intro _ hall
    rw [initialiseFrom]
    simp [hx, hA, hne]
    exact ih (by omega) (fun k hk hk2 => hall k (by omega) hk2)
  | case4 msg hx hA =>
    intro _ hall
    exact absurd (hall (R - 1) le_rfl hx) (by simp [hA])
  | case5 x hx msg hA hne ih =>
    intro _ hall
    exact absurd (hall x le_rfl hx) (by simp [hA])
  | case6 x hx e hA =>
    intro _ hall
    exact absurd (hall x le_rfl hx) (by simp [hA])
  | case7 x hx =>
    intro hlt
    omega

/-! ## The claims -/

/-- Claim C3: when the session state is already CONNECTED, `connect()`
returns immediately: no HTTP request is issued (the world, hence the trace
and request count, is unchanged) and the state is left CONNECTED. -/
theorem connect_idempotent_when_connected (f : Focuser) (w : World)
    (h : f.state = BaseDeviceState.CONNECTED) :
    connect f w = (.ok (), f, w) := by
  simp [connect, h]

/-- Witness for C3 at a concrete connected session. -/
theorem connect_idempotent_when_connected_witness :
    connect ⟨.CONNECTED, .IDLE, false, 0, .ABSOLUTE⟩
        ⟨fun _ => Outcome.httpError 500, 0, []⟩ =
      (.ok (), ⟨.CONNECTED, .IDLE, false, 0, .ABSOLUTE⟩,
        ⟨fun _ => Outcome.httpError 500, 0, []⟩) :=
  connect_idempotent_when_connected _ _ rfl

/-- Claim C4: when the session state is DISCONNECTED, `connect()` issues the
enable request; if the environment answers with a non-success response the
`HTTPStatusError` propagates and the focuser state (hence DISCONNECTED) is
unchanged; the state becomes CONNECTED exactly on transport success. -/
theorem connect_disconnected_behaviour (f : Focuser) (w : World)
    (h : f.state = BaseDeviceState.DISCONNECTED) :
    (∀ code, w.env w.count = Outcome.httpError code →
      connect f w = (.error (.httpStatusError code), f,
        { w with count := w.count + 1, trace := w.trace ++ [Req.focuserEnable] })) ∧
    (∀ st, w.env w.count = Outcome.ok st →
      connect f w = (.ok (), { f with state := BaseDeviceState.CONNECTED },
        { w with count := w.count + 1, trace := w.trace ++ [Req.focuserEnable] })) := by
  constructor
  · intro code hc
    simp [connect, h, clientGet, hc, raise_for_status]
  · intro st hs
    simp [connect, h, clientGet, hs, raise_for_status]

/-- Witness for C4 at a concrete disconnected session whose enable request
fails with status 500. -/
theorem connect_disconnected_behaviour_witness :
    connect ⟨.DISCONNECTED, .IDLE, false, 0, .ABSOLUTE⟩
        ⟨fun _ => Outcome.httpError 500, 0, []⟩ =
      (.error (.httpStatusError 500), ⟨.DISCONNECTED, .IDLE, false, 0, .ABSOLUTE⟩,
        ⟨fun _ => Outcome.httpError 500, 1, [Req.focuserEnable]⟩) :=
  (connect_disconnected_behaviour ⟨.DISCONNECTED, .IDLE, false, 0, .ABSOLUTE⟩
    ⟨fun _ => Outcome.httpError 500, 0, []⟩ rfl).1 500 rfl

/-- Claim C5: while DISCONNECTED, `get_status()` returns `None` and the
world is unchanged, so zero HTTP requests are issued. -/
theorem get_status_disconnected_returns_none (f : Focuser) (w : World)
    (h : f.state = BaseDeviceState.DISCONNECTED) :
    get_status f w = (.ok none, f, w) := by
  simp [get_status, h]

/-- Witness for C5 at a concrete disconnected session. -/
theorem get_status_disconnected_returns_none_witness :
    get_status ⟨.DISCONNECTED, .IDLE, false, 0, .ABSOLUTE⟩
        ⟨fun _ => Outcome.ok ⟨true, true, false, some 0⟩, 0, []⟩ =
      (.ok none, ⟨.DISCONNECTED, .IDLE, false, 0, .ABSOLUTE⟩,
        ⟨fun _ => Outcome.ok ⟨true, true, false, some 0⟩, 0, []⟩) :=
  get_status_disconnected_returns_none _ _ rfl

/-- Claim C9: `get_firmware_version()` raises `NotImplementedError` for
every session state, leaving the world untouched (no HTTP request) and never
returning a version tuple. -/
theorem get_firmware_version_unsupported (f : Focuser) (w : World) :
    get_firmware_version f w =
      (.error (.notImplementedError "get_firmware_version() not implemented."), f, w) :=
  rfl

/-- Claim C7: `is_connected()` returns false while DISCONNECTED without any
HTTP request; otherwise, when the status query yields the snapshot `st`, it
returns `st.is_connected` — so local state CONNECTED together with a
status-reported disconnection yields false rather than being masked. -/
theorem is_connected_agreement (f : Focuser) (w : World)
    (st : PlaneWaveFocuserDeviceInterfaceStatus) :
    (f.state = BaseDeviceState.DISCONNECTED →
      is_connected f w = (.ok false, f, w)) ∧
    (f.state = BaseDeviceState.CONNECTED → w.env w.count = Outcome.ok st →
      (is_connected f w).1 = .ok st.is_connected) := by
  constructor
  · intro h
    simp [is_connected, h]
  · intro h hs
    simp [is_connected, get_status, clientGet, h, hs]

/-- Witness for C7: a disconnected session answers false with no request,
and a connected session whose device reports `is_connected = false` answers
false. -/
theorem is_connected_agreement_witness :
    is_connected ⟨.DISCONNECTED, .IDLE, false, 0, .ABSOLUTE⟩
        ⟨fun _ => Outcome.ok ⟨false, true, false, some 0⟩, 0, []⟩ =
      (.ok false, ⟨.DISCONNECTED, .IDLE, false, 0, .ABSOLUTE⟩,
        ⟨fun _ => Outcome.ok ⟨false, true, false, some 0⟩, 0, []⟩) ∧
    (is_connected ⟨.CONNECTED, .IDLE, false, 0, .ABSOLUTE⟩
        ⟨fun _ => Outcome.ok ⟨false, true, false, some 0⟩, 0, []⟩).1 = .ok false :=
  ⟨(is_connected_agreement ⟨.DISCONNECTED, .IDLE, false, 0, .ABSOLUTE⟩
      ⟨fun _ => Outcome.ok ⟨false, true, false, some 0⟩, 0, []⟩
      ⟨false, true, false, some 0⟩).1 rfl,
   (is_connected_agreement ⟨.CONNECTED, .IDLE, false, 0, .ABSOLUTE⟩
      ⟨fun _ => Outcome.ok ⟨false, true, false, some 0⟩, 0, []⟩
      ⟨false, true, false, some 0⟩).2 rfl rfl⟩

/-- Claim C6: on a connected session whose status query yields the snapshot
`st`, `is_moving()` returns true exactly when `st.is_moving` holds, the
local moving-state flag is MOVING, and the locally recorded target position
differs from the snapshot's reported position; and `set_position p` records
`p` as that target. -/
theorem is_moving_triple_condition (f : Focuser) (w : World)
    (st : PlaneWaveFocuserDeviceInterfaceStatus) (p : Int)
    (hc : f.state = BaseDeviceState.CONNECTED)
    (hs : w.env w.count = Outcome.ok st) :
    ((is_moving f w).1 = .ok true ↔
      (st.is_moving = true ∧ f.moving_state = BaseFocuserMovingState.MOVING ∧
        some f.target_step_position ≠ st.position)) ∧
    (set_position f p w).2.1.target_step_position = p := by
  constructor
  · simp [is_moving, get_status, clientGet, hc, hs, and_assoc]
  · simp [set_position, clientGet]

/-- Witness for C6: after `set_position 5`, a snapshot at position 7 with
`is_moving = true` and local flag MOVING makes `is_moving()` return true,
while a snapshot at position 5 with `is_moving = false` makes it return
false. -/
theorem is_moving_triple_condition_witness :
    (is_moving ⟨.CONNECTED, .MOVING, true, 5, .ABSOLUTE⟩
        ⟨fun _ => Outcome.ok ⟨true, true, true, some 7⟩, 0, []⟩).1 = .ok true ∧
    (set_position ⟨.CONNECTED, .MOVING, true, 0, .ABSOLUTE⟩ 5
        ⟨fun _ => Outcome.ok ⟨true, true, true, some 7⟩, 0, []⟩).2.1.target_step_position = 5 ∧
    (is_moving ⟨.CONNECTED, .MOVING, true, 5, .ABSOLUTE⟩
        ⟨fun _ => Outcome.ok ⟨true, true, false, some 5⟩, 0, []⟩).1 ≠ .ok true :=
  ⟨(is_moving_triple_condition ⟨.CONNECTED, .MOVING, true, 5, .ABSOLUTE⟩
      ⟨fun _ => Outcome.ok ⟨true, true, true, some 7⟩, 0, []⟩
      ⟨true, true, true, some 7⟩ 5 rfl rfl).1.mpr (by decide),
   (is_moving_triple_condition ⟨.CONNECTED, .MOVING, true, 0, .ABSOLUTE⟩
      ⟨fun _ => Outcome.ok ⟨true, true, true, some 7⟩, 0, []⟩
      ⟨true, true, true, some 7⟩ 5 rfl rfl).2,
   fun h =>
     absurd ((is_moving_triple_condition ⟨.CONNECTED, .MOVING, true, 5, .ABSOLUTE⟩
       ⟨fun _ => Outcome.ok ⟨true, true, false, some 5⟩, 0, []⟩
       ⟨true, true, false, some 5⟩ 5 rfl rfl).1.mp h) (by decide)⟩

/-- Claim C8: one `disconnect()` call on a connected session produces, in
order, either the trace `[stop]` (when the stop request itself fails) or
`[stop, disable]`; in particular every disable request in the trace is
preceded by an earlier stop request, and no disable is ever sent before a
stop. -/
theorem disconnect_stop_precedes_disable (f : Focuser) (w : World)
    (hc : f.state = BaseDeviceState.CONNECTED) (ht : w.trace = []) :
    ((disconnect f w).2.2.trace = [Req.focuserStop] ∨
      (disconnect f w).2.2.trace = [Req.focuserStop, Req.focuserDisable]) ∧
    (∀ i : Nat, (disconnect f w).2.2.trace.get? i = some Req.focuserDisable →
      ∃ j : Nat, j < i ∧ (disconnect f w).2.2.trace.get? j = some Req.focuserStop) := by
  have hshape : (disconnect f w).2.2.trace = [Req.focuserStop] ∨
      (disconnect f w).2.2.trace = [Req.focuserStop, Req.focuserDisable] := by
    rcases h0 : w.env w.count with code | st
    · left
      simp [disconnect, abort_move, clientGet, raise_for_status, hc, h0, ht]
    · rcases h1 : w.env (w.count + 1) with code | st2
      · right
        simp [disconnect, abort_move, clientGet, raise_for_status, hc, h0, h1, ht]
      · right
        simp [disconnect, abort_move, clientGet, raise_for_status, hc, h0, h1, ht]
  refine ⟨hshape, ?_⟩
  intro i hi
  rcases hshape with h | h <;> rw [h] at hi ⊢
  · match i, hi with
    | 0, hi => simp at hi
  · match i, hi with
    | 1, hi => exact ⟨0, by omega, rfl⟩

/-- Witness for C8: a concrete connected session whose two requests both
succeed yields the trace `[stop, disable]` with the stop at index 0. -/
theorem disconnect_stop_precedes_disable_witness :
    ((disconnect ⟨.CONNECTED, .IDLE, false, 0, .ABSOLUTE⟩
        ⟨fun _ => Outcome.ok ⟨true, true, false, some 0⟩, 0, []⟩).2.2.trace = [Req.focuserStop] ∨
      (disconnect ⟨.CONNECTED, .IDLE, false, 0, .ABSOLUTE⟩
        ⟨fun _ => Outcome.ok ⟨true, true, false, some 0⟩, 0, []⟩).2.2.trace =
          [Req.focuserStop, Req.focuserDisable]) :=
  (disconnect_stop_precedes_disable ⟨.CONNECTED, .IDLE, false, 0, .ABSOLUTE⟩
    ⟨fun _ => Outcome.ok ⟨true, true, false, some 0⟩, 0, []⟩ rfl rfl).1

/-- Claim C10: `set_position p` records `p` as the local target before the
goto request is issued, so even when the request fails with a transport
error the recorded target remains `p` (the mutation is not rolled back),
the error propagates, and the goto request appears in the trace. -/
theorem set_position_target_not_rolled_back (f : Focuser) (p : Int) (w : World)
    (code : Nat) :
    (set_position f p w).2.1.target_step_position = p ∧
    (w.env w.count = Outcome.httpError code →
      (set_position f p w).1 = .error (.httpStatusError code) ∧
      (set_position f p w).2.2.trace = w.trace ++ [Req.focuserGoto p]) := by
  refine ⟨by simp [set_position, clientGet], fun hfail => ?_⟩
  constructor
  · simp [set_position, clientGet, hfail, raise_for_status]
  · simp [set_position, clientGet]

/-- Witness for C10: a concrete `set_position 42` whose goto request fails
with status 500 still leaves the recorded target at 42. -/
theorem set_position_target_not_rolled_back_witness :
    (set_position ⟨.CONNECTED, .IDLE, false, 0, .ABSOLUTE⟩ 42
        ⟨fun _ => Outcome.httpError 500, 0, []⟩).2.1.target_step_position = 42 ∧
    (set_position ⟨.CONNECTED, .IDLE, false, 0, .ABSOLUTE⟩ 42
        ⟨fun _ => Outcome.httpError 500, 0, []⟩).1 = .error (.httpStatusError 500) :=
  ⟨(set_position_target_not_rolled_back ⟨.CONNECTED, .IDLE, false, 0, .ABSOLUTE⟩ 42
      ⟨fun _ => Outcome.httpError 500, 0, []⟩ 500).1,
   ((set_position_target_not_rolled_back ⟨.CONNECTED, .IDLE, false, 0, .ABSOLUTE⟩ 42
      ⟨fun _ => Outcome.httpError 500, 0, []⟩ 500).2 rfl).1⟩

/-- Claim C1, counterexample: on a connected session whose stop request
succeeds but whose disable request fails with status 500, `disconnect()`
raises the `HTTPStatusError` and the session state is still CONNECTED — the
state is not unconditionally reset to DISCONNECTED. -/
theorem disconnect_counterexample_disable_failure :
    ((disconnect ⟨.CONNECTED, .IDLE, false, 0, .ABSOLUTE⟩
        ⟨fun n => if n = 0 then Outcome.ok ⟨true, true, false, some 0⟩
                  else Outcome.httpError 500, 0, []⟩).2.1.state =
      BaseDeviceState.CONNECTED) ∧
    ((disconnect ⟨.CONNECTED, .IDLE, false, 0, .ABSOLUTE⟩
        ⟨fun n => if n = 0 then Outcome.ok ⟨true, true, false, some 0⟩
                  else Outcome.httpError 500, 0, []⟩).1 =
      .error (.httpStatusError 500)) := by
  constructor <;> rfl

/-- Claim C1, amended: `disconnect()` on a connected session sets the state
to DISCONNECTED when both the stop and the disable request succeed; when the
stop request fails, or the stop succeeds and the disable request fails, the
`HTTPStatusError` propagates and the state remains CONNECTED (there is no
try/finally around the state reset). -/
theorem disconnect_state_reset_on_success_only (f : Focuser) (w : World)
    (hc : f.state = BaseDeviceState.CONNECTED) :
    (∀ st st2, w.env w.count = Outcome.ok st →
      w.env (w.count + 1) = Outcome.ok st2 →
      (disconnect f w).1 = .ok () ∧
      (disconnect f w).2.1.state = BaseDeviceState.DISCONNECTED) ∧
    (∀ st code, w.env w.count = Outcome.ok st →
      w.env (w.count + 1) = Outcome.httpError code →
      (disconnect f w).1 = .error (.httpStatusError code) ∧
      (disconnect f w).2.1.state = BaseDeviceState.CONNECTED) ∧
    (∀ code, w.env w.count = Outcome.httpError code →
      (disconnect f w).1 = .error (.httpStatusError code) ∧
      (disconnect f w).2.1.state = BaseDeviceState.CONNECTED) := by
  refine ⟨fun st st2 h0 h1 => ?_, fun st code h0 h1 => ?_, fun code h0 => ?_⟩
  · constructor <;> simp [disconnect, abort_move, clientGet, raise_for_status, hc, h0, h1]
  · constructor <;> simp [disconnect, abort_move, clientGet, raise_for_status, hc, h0, h1]
  · constructor <;> simp [disconnect, abort_move, clientGet, raise_for_status, hc, h0]

/-- Witness for the amended C1 at concrete sessions: both requests
succeeding yields DISCONNECTED; a failing disable leaves CONNECTED. -/
theorem disconnect_state_reset_on_success_only_witness :
    (disconnect ⟨.CONNECTED, .IDLE, false, 0, .ABSOLUTE⟩
        ⟨fun _ => Outcome.ok ⟨true, true, false, some 0⟩, 0, []⟩).2.1.state =
      BaseDeviceState.DISCONNECTED ∧
    (disconnect ⟨.CONNECTED, .IDLE, false, 0, .ABSOLUTE⟩
        ⟨fun n => if n = 0 then Outcome.ok ⟨true, true, false, some 0⟩
                  else Outcome.httpError 500, 0, []⟩).2.1.state =
      BaseDeviceState.CONNECTED :=
  ⟨((disconnect_state_reset_on_success_only ⟨.CONNECTED, .IDLE, false, 0, .ABSOLUTE⟩
      ⟨fun _ => Outcome.ok ⟨true, true, false, some 0⟩, 0, []⟩ rfl).1
      ⟨true, true, false, some 0⟩ ⟨true, true, false, some 0⟩ rfl rfl).2,
   ((disconnect_state_reset_on_success_only ⟨.CONNECTED, .IDLE, false, 0, .ABSOLUTE⟩
      ⟨fun n => if n = 0 then Outcome.ok ⟨true, true, false, some 0⟩
                else Outcome.httpError 500, 0, []⟩ rfl).2.1
      ⟨true, true, false, some 0⟩ 500 rfl rfl).2⟩

/-- Claim C2: for `retries = R ≥ 1`, the `initialise` loop runs at most `R`
attempts whatever their outcomes; when every attempt times out it raises the
timeout error after exactly `R` attempts (neither `R + 1` nor `R - 1`); and
on any non-final attempt a timeout or a `RuntimeError` is swallowed and the
loop simply retries from the next attempt. -/
theorem initialise_retry_semantics (attempt : Nat → AttemptResult) (R : Nat)
    (hR : 1 ≤ R) :
    (initialise attempt R).2 ≤ R ∧
    ((∀ k, k < R → attempt k = AttemptResult.timedOut) →
      initialise attempt R = (.error Err.timeoutError, R)) ∧
    (∀ i, i + 1 < R →
      (attempt i = AttemptResult.timedOut ∨
        (∃ msg, attempt i = AttemptResult.runtimeErr msg)) →
      initialiseFrom attempt R i = initialiseFrom attempt R (i + 1)) := by
  refine ⟨initialiseFrom_count_le attempt R 0 (by omega), fun hall =>
    initialiseFrom_all_timeout attempt R 0 (by omega) (fun k _ hk => hall k hk), ?_⟩
  intro i hi hfail
  have hlt : i < R := by omega
  have hne : ¬ i = R - 1 := by omega
  rcases hfail with hA | ⟨msg, hA⟩
  · conv_lhs => rw [initialiseFrom]
    simp [hlt, hA, hne]
  · conv_lhs => rw [initialiseFrom]
    simp [hlt, hA, hne]

/-- Witness for C2: with `R = 3` and every attempt timing out, `initialise`
raises the timeout error after exactly 3 attempts, and the first attempt's
timeout is swallowed. -/
theorem initialise_retry_semantics_witness :
    initialise (fun _ => AttemptResult.timedOut) 3 = (.error Err.timeoutError, 3) ∧
    initialiseFrom (fun _ => AttemptResult.timedOut) 3 0 =
      initialiseFrom (fun _ => AttemptResult.timedOut) 3 1 :=
  ⟨(initialise_retry_semantics (fun _ => AttemptResult.timedOut) 3 (by omega)).2.1
      (fun _ _ => rfl),
   (initialise_retry_semantics (fun _ => AttemptResult.timedOut) 3 (by omega)).2.2 0
      (by omega) (Or.inl rfl)⟩

end Pwi
